import Mathlib

/-!
Shallow embedding of the medperf entity-reconciliation, association and
compatibility-test code (src/cli/medperf), with theorems settling the
frozen claims about it.

Conventions of the embedding:
* Python exceptions become the `PyError` sum type; fallible operations
  return `Except PyError`.
* The local storage tier (one directory per entity key holding a
  registration record) becomes association lists from storage keys to
  record structures inside `Fs`; OS-level write failures are represented
  by a set of keys whose write raises.
* The remote registry (the comms facade, whose module is not under src/)
  is modelled from the spec as `RemoteEnv`: per-type record collections
  plus reachability flags; an unreachable registry or an absent record
  surfaces as `CommunicationRetrievalError`, exactly the condition the
  source code catches.
-/

/-- Errors raised by the embedded code. Each constructor corresponds to a
Python exception class used by the source (`prettyError` models the
`pretty_error` helper, which is not under src/ and, per the spec, aborts
the command with a user-facing message). -/
inductive PyError where
  | commRetrieval
  | invalidArgument (msg : String)
  | medperfException (msg : String)
  | validationError (msg : String)
  | osError
  | attributeError (nm : String)
  | typeError (msg : String)
  | prettyError (msg : String)
  | notImplementedError (msg : String)
deriving Repr, DecidableEq

/-- Python values that are either `int` or `str` (the declared type of
`Dataset.data_preparation_mlcube` is `Union[int, str]`). -/
inductive PyVal where
  | pint (n : Int)
  | pstr (s : String)
deriving Repr, DecidableEq

/-- Truth of `isinstance(v, int)`. -/
def PyVal.isInt : PyVal → Bool
  | .pint _ => true
  | .pstr _ => false

/-- Lookup in an association list (first match), mirroring a directory
lookup by name in local storage. -/
def lookupAssoc {α : Type} (l : List (String × α)) (k : String) : Option α :=
  (l.find? (fun p => p.1 = k)).map (fun p => p.2)

/-- Insert-or-replace in an association list, mirroring writing a record
file under a storage key. -/
def putAssoc {α : Type} (l : List (String × α)) (k : String) (v : α) : List (String × α) :=
  match l with
  | [] => [(k, v)]
  | (k1, v1) :: t => if k1 = k then (k, v) :: t else (k1, v1) :: putAssoc t k v

/-- Python `str.isdigit`: nonempty and all characters are digits. -/
def isStrDigit (s : String) : Bool :=
  !s.data.isEmpty && s.data.all Char.isDigit

/-- Python `f"{x}"` applied to an `Optional[str]`: `None` renders as the
string `"None"`. -/
def pyStr : Option String → String
  | none => "None"
  | some s => s

/-- Python truthiness of an `Optional[str]` value: `None` and the empty
string are falsy. -/
def optTruthy : Option String → Bool
  | none => false
  | some s => !(s = "")

/-- Registration record of a dataset, as stored locally and as returned by
the registry. Only the fields the embedded control flow reads are kept;
`for_test` comes from the base schema (MedperfSchema, not under src/),
which the spec describes as flagging synthetic/test entities. -/
structure DatasetMeta where
  id : Option Nat
  name : String
  generated_uid : String
  data_preparation_mlcube : PyVal
  for_test : Bool
deriving Repr, DecidableEq

/-- Benchmark record (`BenchmarkModel`; its module is not under src/, the
fields are the ones read by src/cli/medperf/entities/benchmark.py).
Identifiers are kept as strings since temporary benchmark uids are
strings and storage keys are `str(id)`. -/
structure BenchmarkModel where
  id : String
  name : String
  data_preparation_mlcube : String
  reference_model_mlcube : String
  data_evaluator_mlcube : String
  demo_dataset_tarball_url : Option String
  demo_dataset_tarball_hash : Option String
  models : List String
deriving Repr, DecidableEq

/-- Association record (`ApprovableSchema` fields; module not under
src/). -/
structure AssociationMeta where
  id : Option Nat
  approval_status : String
deriving Repr, DecidableEq

/-- Local storage: one record per key, per entity type, plus the set of
keys whose write raises an OS error, and the symlinks created for test
cubes. -/
structure Fs where
  datasets : List (String × DatasetMeta)
  benchmarks : List (String × BenchmarkModel)
  ds_write_fail : List String
  bmk_write_fail : List String
  cube_symlinks : List (String × String)
deriving Repr, DecidableEq

/-- Modelled from the spec: the Registry Client Facade (the comms module
is not under src/). Record collections are keyed by their server id; an
unreachable registry or a missing record raises the retrieval error. -/
structure RemoteEnv where
  reachable : Bool
  datasets : List DatasetMeta
  benchmarks : List (String × BenchmarkModel)
  benchmark_models : List (String × List String)
  user_dataset_associations : List AssociationMeta
  user_mlcube_associations : List AssociationMeta
  assoc_ds_ok : Bool
  assoc_cube_ok : Bool
deriving Repr, DecidableEq

/-- Remote `get_dataset(uid)`: the server record whose id renders to the
requested uid, if the registry is reachable. -/
def RemoteEnv.get_dataset (r : RemoteEnv) (uid : String) : Option DatasetMeta :=
  if r.reachable then
    r.datasets.find? (fun m => m.id.map toString = some uid)
  else none

/-- Remote `get_datasets()`: the full dataset collection, or the
retrieval error if unreachable. -/
def RemoteEnv.list_datasets (r : RemoteEnv) : Except PyError (List DatasetMeta) :=
  if r.reachable then .ok r.datasets else .error .commRetrieval

/-- Remote `get_benchmark(uid)`. -/
def RemoteEnv.get_benchmark (r : RemoteEnv) (uid : String) : Option BenchmarkModel :=
  if r.reachable then lookupAssoc r.benchmarks uid else none

/-- Remote `get_benchmark_models(uid)`. -/
def RemoteEnv.get_benchmark_models (r : RemoteEnv) (uid : String) : Option (List String) :=
  if r.reachable then lookupAssoc r.benchmark_models uid else none

/-- Validator `Dataset.check_data_preparation_mlcube`
(src/cli/medperf/entities/dataset.py lines 39-45): a non-integer data
preparation cube reference is rejected unless the record is flagged
`for_test`. -/
def check_data_preparation_mlcube (v : PyVal) (for_test : Bool) : Except PyError PyVal :=
  if !v.isInt && !for_test then
    .error (.validationError
      "data_preparation_mlcube must be an integer if not running a compatibility test")
  else .ok v

/-- A constructed `Dataset` instance (construction runs the pydantic
validators). -/
structure Dataset where
  meta : DatasetMeta
deriving Repr, DecidableEq

/-- Storage key computed by `Dataset.__init__`: `str(id)` when the record
has a server id, else `generated_uid`. -/
def Dataset.key (d : Dataset) : String :=
  match d.meta.id with
  | some i => toString i
  | none => d.meta.generated_uid

/-- Construction `Dataset(**meta)`: runs the
`check_data_preparation_mlcube` validator. -/
def Dataset.construct (m : DatasetMeta) : Except PyError Dataset :=
  match check_data_preparation_mlcube m.data_preparation_mlcube m.for_test with
  | .error e => .error e
  | .ok _ => .ok ⟨m⟩

/-- Method `Dataset.write`: dumps the registration record under the
instance storage key; an OS-level failure raises. -/
def Dataset.write (fs : Fs) (d : Dataset) : Except PyError Fs :=
  if fs.ds_write_fail.contains (Dataset.key d) then .error .osError
  else .ok { fs with datasets := putAssoc fs.datasets (Dataset.key d) d.meta }

/-- Error message of `Dataset.__get_local_dict` when no record exists. -/
def notFoundMsg : String := "The requested dataset information could not be found locally"

/-- Classmethod `Dataset.__get_local_dict`: reads the registration record
under the given key, raising `InvalidArgumentError` when absent. -/
def Dataset.get_local_dict (fs : Fs) (uid : String) : Except PyError DatasetMeta :=
  match lookupAssoc fs.datasets uid with
  | some meta => .ok meta
  | none => .error (.invalidArgument notFoundMsg)

/-- Classmethod `Dataset.__local_get`. -/
def Dataset.local_get (fs : Fs) (uid : String) : Except PyError Dataset := do
  let meta ← Dataset.get_local_dict fs uid
  Dataset.construct meta

/-- Classmethod `Dataset.__remote_get`: fetches the record from the
registry, constructs the instance and writes it through to local
storage. The write is not guarded: its failure propagates. -/
def Dataset.remote_get (r : RemoteEnv) (fs : Fs) (uid : String) :
    Except PyError (Dataset × Fs) :=
  match RemoteEnv.get_dataset r uid with
  | none => .error .commRetrieval
  | some meta => do
    let d ← Dataset.construct meta
    let fs1 ← Dataset.write fs d
    .ok (d, fs1)

/-- A `try ... except CommunicationRetrievalError` block: exactly the
retrieval error is replaced by the fallback computation; every other
outcome passes through. -/
def catchComm {α : Type} (x : Except PyError α) (fallback : Except PyError α) :
    Except PyError α :=
  match x with
  | .error .commRetrieval => fallback
  | other => other

/-- Classmethod `Dataset.get` (src/cli/medperf/entities/dataset.py lines
178-197): non-digit uids and local-only requests go to the local cache
directly; otherwise remote first, falling back to the local cache only
on `CommunicationRetrievalError`. -/
def Dataset.get (r : RemoteEnv) (fs : Fs) (uid : String) (local_only : Bool) :
    Except PyError (Dataset × Fs) :=
  if !(isStrDigit uid) || local_only then
    (Dataset.local_get fs uid).map (fun d => (d, fs))
  else
    catchComm (Dataset.remote_get r fs uid)
      ((Dataset.local_get fs uid).map (fun d => (d, fs)))

/-- Classmethod `Dataset.__remote_all` (with the default empty filter,
under which `__remote_prefilter` selects `comms.get_datasets`): a
retrieval error is swallowed into an empty list; a validation error
while constructing an instance propagates. -/
def Dataset.remote_all (r : RemoteEnv) : Except PyError (List Dataset) :=
  match RemoteEnv.list_datasets r with
  | .error .commRetrieval => .ok []
  | .error e => .error e
  | .ok metas => metas.mapM Dataset.construct

/-- Classmethod `Dataset.__local_all`: constructs an instance from every
record present in local dataset storage. -/
def Dataset.local_all (fs : Fs) : Except PyError (List Dataset) :=
  fs.datasets.mapM (fun kv => Dataset.construct kv.2)

/-- Classmethod `Dataset.all` (src/cli/medperf/entities/dataset.py lines
100-122): remote entities first, then the local entities whose id is not
among the remote ids. -/
def Dataset.all (r : RemoteEnv) (fs : Fs) (local_only : Bool) :
    Except PyError (List Dataset) := do
  let dsets ← if local_only then Except.ok [] else Dataset.remote_all r
  let remote_uids := dsets.map (fun d => d.meta.id)
  let local_dsets ← Dataset.local_all fs
  Except.ok (dsets ++ local_dsets.filter (fun d => !(remote_uids.contains d.meta.id)))

/-- A constructed `Benchmark` instance wrapping its model record. -/
structure Benchmark where
  model : BenchmarkModel
deriving Repr, DecidableEq

/-- Modelled from the spec: `config.tmp_prefix` (the config module is not
under src/), the reserved identifier head that keeps temporary entity
uids disjoint from registry-assigned integer identifiers. -/
def tmpUidHead : String := "tmp_"

/-- Modelled from the spec: `config.test_cube_prefix` (config module not
under src/), the reserved head for temporary test-cube identifiers. -/
def testCubeHead : String := "test_"

/-- Modelled from the spec: `config.cubes_storage` (config module not
under src/), the cube storage directory test-cube symlinks are placed
in. -/
def cubesStorageDir : String := "cubes"

/-- Method `Benchmark.write` (src/cli/medperf/entities/benchmark.py lines
167-184): dumps the record under `str(self.model.id)` inside the
benchmarks storage; an OS-level failure raises. -/
def Benchmark.write (fs : Fs) (b : Benchmark) : Except PyError Fs :=
  if fs.bmk_write_fail.contains b.model.id then .error .osError
  else .ok { fs with benchmarks := putAssoc fs.benchmarks b.model.id b.model }

/-- Local fallback of `Benchmark.get`: the record under the uid in the
benchmarks storage listing, else `InvalidArgumentError`. -/
def Benchmark.local_dict (fs : Fs) (uid : String) : Except PyError BenchmarkModel :=
  match lookupAssoc fs.benchmarks uid with
  | some bd => .ok bd
  | none => .error (.invalidArgument "No benchmark with the given uid could be found")

/-- Classmethod `Benchmark.get` (src/cli/medperf/entities/benchmark.py
lines 54-89): remote record plus the remote model list first (either
call raising the retrieval error triggers the local fallback), then the
instance is written through to local storage; the write is not guarded. -/
def Benchmark.get (r : RemoteEnv) (fs : Fs) (uid : String) :
    Except PyError (Benchmark × Fs) := do
  let bdict ←
    match RemoteEnv.get_benchmark r uid with
    | some bd =>
      match RemoteEnv.get_benchmark_models r uid with
      | some add => Except.ok { bd with models := bd.reference_model_mlcube :: add }
      | none => Benchmark.local_dict fs uid
    | none => Benchmark.local_dict fs uid
  let b : Benchmark := ⟨bdict⟩
  let fs1 ← Benchmark.write fs b
  Except.ok (b, fs1)

/-- Helper of `Benchmark.all`: fetches every uid in turn, threading the
storage state each `get` writes through. -/
def Benchmark.allGo (r : RemoteEnv) : List String → Fs → Except PyError (List Benchmark × Fs)
  | [], fs => .ok ([], fs)
  | uid :: rest, fs => do
    let (b, fs1) ← Benchmark.get r fs uid
    let (bs, fs2) ← Benchmark.allGo r rest fs1
    .ok (b :: bs, fs2)

/-- Classmethod `Benchmark.all` (src/cli/medperf/entities/benchmark.py
lines 34-52): enumerates the uids present in local benchmark storage and
fetches each via `Benchmark.get`; no remote listing is performed. -/
def Benchmark.all (r : RemoteEnv) (fs : Fs) : Except PyError (List Benchmark × Fs) :=
  Benchmark.allGo r (fs.benchmarks.map (fun kv => kv.1)) fs

/-- Classmethod `Benchmark.tmp` (src/cli/medperf/entities/benchmark.py
lines 110-144), record part: the temporary uid is the reserved head
followed by the three cube uids, and the record carries the cube triple
plus the optional demo url and hash. -/
def Benchmark.tmpModel (data_preparator mdl evaluator : String)
    (demo_url demo_hash : Option String) : BenchmarkModel :=
  { id := tmpUidHead ++ data_preparator ++ "_" ++ mdl ++ "_" ++ evaluator
    name := tmpUidHead ++ data_preparator ++ "_" ++ mdl ++ "_" ++ evaluator
    data_preparation_mlcube := data_preparator
    reference_model_mlcube := mdl
    data_evaluator_mlcube := evaluator
    demo_dataset_tarball_url := demo_url
    demo_dataset_tarball_hash := demo_hash
    models := [mdl] }

/-- Body of `Benchmark.tmp`: build the instance over `tmpModel` and
write it into benchmark storage. -/
def Benchmark.tmp (fs : Fs) (data_preparator mdl evaluator : String)
    (demo_url demo_hash : Option String) : Except PyError (Benchmark × Fs) :=
  let b : Benchmark := ⟨Benchmark.tmpModel data_preparator mdl evaluator demo_url demo_hash⟩
  match Benchmark.write fs b with
  | .error e => .error e
  | .ok fs1 => .ok (b, fs1)

/-- Modelled from the spec: the registry as seen through the upload
capability (`createEntity(type, record)` assigns the identifier server
side); `uploaded_*` accumulate every submitted body. -/
structure Registry where
  uploaded_benchmarks : List BenchmarkModel
  uploaded_datasets : List DatasetMeta
  next_id : Nat
deriving Repr, DecidableEq

/-- Modelled from the spec: `comms.upload_benchmark` returns the body
with the server-assigned identifier and records the submission. -/
def Registry.upload_benchmark (reg : Registry) (body : BenchmarkModel) :
    BenchmarkModel × Registry :=
  ({ body with id := toString reg.next_id },
   { reg with uploaded_benchmarks := reg.uploaded_benchmarks ++ [body]
              next_id := reg.next_id + 1 })

/-- Modelled from the spec: `comms.upload_dataset`. -/
def Registry.upload_dataset (reg : Registry) (body : DatasetMeta) :
    DatasetMeta × Registry :=
  ({ body with id := some reg.next_id },
   { reg with uploaded_datasets := reg.uploaded_datasets ++ [body]
              next_id := reg.next_id + 1 })

/-- Method `Benchmark.upload` (src/cli/medperf/entities/benchmark.py
lines 186-195): submits the record unconditionally (no synthetic-entity
guard) and copies the local model list onto the server reply. -/
def Benchmark.upload (reg : Registry) (b : Benchmark) : BenchmarkModel × Registry :=
  let body := b.model
  let (updated_body, reg1) := Registry.upload_benchmark reg body
  ({ updated_body with models := body.models }, reg1)

/-- Method `Dataset.upload` (src/cli/medperf/entities/dataset.py lines
241-251): refuses test datasets with `InvalidArgumentError`, otherwise
submits the record and returns the server-updated body. -/
def Dataset.upload (reg : Registry) (d : Dataset) :
    (Except PyError DatasetMeta) × Registry :=
  if d.meta.for_test then
    (.error (.invalidArgument "Cannot upload test datasets."), reg)
  else
    let (upd, reg1) := Registry.upload_dataset reg d.meta
    (.ok upd, reg1)

/-- The method definitions textually present in the body of class
`Association` (src/cli/medperf/entities/association.py). Two `def
__remote_all` blocks appear (lines 49-66 and lines 68-71); both bind the
same name-mangled class attribute. -/
inductive AssocMethodDef where
  | remoteAllFirst
  | remoteAllSecond
deriving Repr, DecidableEq

/-- The class body of `Association` as a sequence of attribute bindings
for the name-mangled private methods, in textual order. `__local_all` is
never bound: the second definition that was evidently meant to be the
local no-op was itself named `__remote_all`. -/
def Association.classBody : List (String × AssocMethodDef) :=
  [("_Association__remote_all", .remoteAllFirst),
   ("_Association__remote_all", .remoteAllSecond)]

/-- Python class-attribute resolution: later bindings of the same name in
the class body overwrite earlier ones. -/
def pyClassLookup (body : List (String × AssocMethodDef)) (nm : String) :
    Option AssocMethodDef :=
  (body.reverse.find? (fun p => p.1 = nm)).map (fun p => p.2)

/-- First textual definition of `Association.__remote_all` (lines 49-66):
raises `NotImplementedError` unless `mine_only`, then accumulates the
user dataset associations and the user mlcube associations, swallowing a
retrieval error (items appended before the failing call are kept). -/
def Association.remote_all_v1 (r : RemoteEnv) (mine_only : Bool) :
    Except PyError (List AssociationMeta) :=
  if !mine_only then
    .error (.notImplementedError "Only current-user remote associations can be retrieved")
  else
    let metas :=
      if !r.assoc_ds_ok then []
      else if !r.assoc_cube_ok then r.user_dataset_associations
      else r.user_dataset_associations ++ r.user_mlcube_associations
    .ok metas

/-- Second textual definition of `Association.__remote_all` (lines
68-71): the no-op that returns the empty list (its comment says
associations are not stored locally). It takes no argument besides the
class. -/
def Association.remote_all_v2 : List AssociationMeta := []

/-- The call `cls.__remote_all(mine_only=mine_only)` made by
`Association.all`: resolves the mangled attribute (the second definition
wins) and applies it; the surviving definition accepts no `mine_only`
keyword, so the call raises `TypeError`. -/
def Association.call_remote_all (r : RemoteEnv) (mine_only : Bool) :
    Except PyError (List AssociationMeta) :=
  match pyClassLookup Association.classBody "_Association__remote_all" with
  | none => .error (.attributeError "_Association__remote_all")
  | some .remoteAllFirst => Association.remote_all_v1 r mine_only
  | some .remoteAllSecond =>
    .error (.typeError "__remote_all() got an unexpected keyword argument mine_only")

/-- The call `cls.__local_all()` made by `Association.all`: the mangled
attribute `_Association__local_all` was never bound, so the call raises
`AttributeError`. -/
def Association.call_local_all : Except PyError (List AssociationMeta) :=
  match pyClassLookup Association.classBody "_Association__local_all" with
  | none => .error (.attributeError "_Association__local_all")
  | some .remoteAllFirst => .error (.typeError "__local_all() takes 1 positional argument")
  | some .remoteAllSecond => .ok Association.remote_all_v2

/-- Classmethod `Association.all`
(src/cli/medperf/entities/association.py lines 21-47): remote
associations unless `local_only`, then the local tier merged in by id. -/
def Association.all (r : RemoteEnv) (local_only : Bool) (mine_only : Bool) :
    Except PyError (List AssociationMeta) := do
  let associations ←
    if local_only then Except.ok [] else Association.call_remote_all r mine_only
  let remote_uids := associations.map (fun a => a.id)
  let local_associations ← Association.call_local_all
  Except.ok (associations ++
    local_associations.filter (fun a => !(remote_uids.contains a.id)))

/-- Modelled from the spec: the dataset record as read by the associate
command (this command uses the earlier entity API, whose Dataset class
is not under src/): a registered uid and the declared data-preparation
cube reference. -/
structure OldDataset where
  uid : Nat
  preparation_cube_uid : String
deriving Repr, DecidableEq

/-- Modelled from the spec: the benchmark record as read by the
associate command: a registered uid and the registered data-preparation
cube reference. -/
structure OldBenchmark where
  uid : Nat
  data_preparation : String
deriving Repr, DecidableEq

/-- Modelled from the spec: the association store held solely by the
registry (`server.associate_dset_benchmark` appends a record). -/
structure AssocServer where
  dset_benchmark_associations : List (Nat × Nat)
deriving Repr, DecidableEq

/-- Staticmethod `DatasetBenchmarkAssociation.run`
(src/cli/medperf/commands/associate.py lines 8-28), after the dataset
and benchmark records are resolved: an incompatible data-preparation
cube aborts via `pretty_error` (modelled from the spec as raising the
user-facing condition) before any association request; otherwise the
user is prompted and, on approval, the association record is created on
the server. -/
def DatasetBenchmarkAssociation.run (dset : OldDataset) (benchmark : OldBenchmark)
    (approval : Bool) (sv : AssocServer) : (Except PyError Unit) × AssocServer :=
  if dset.preparation_cube_uid ≠ benchmark.data_preparation then
    (.error (.prettyError "The specified dataset was not prepared for this benchmark"), sv)
  else if approval then
    (.ok (),
     { sv with dset_benchmark_associations :=
         sv.dset_benchmark_associations ++ [(dset.uid, benchmark.uid)] })
  else (.ok (), sv)

/-- Workflow state of `CompatibilityTestExecution`
(src/cli/medperf/commands/compatibility_test.py): the constructor
arguments plus the attributes the methods assign (`benchmark`, a src
`Benchmark` instance, and `cube_uid`). Registry uids are rendered as
strings. -/
structure CTState where
  benchmark_uid : Option String
  benchmark : Option Benchmark
  data_uid : Option String
  data_prep : Option String
  model : Option String
  evaluator : Option String
  cube_uid : Option String
deriving Repr, DecidableEq

/-- The cube-slot attributes `set_cube_uid` is called on. -/
inductive CubeAttr where
  | dataPrepA
  | modelA
  | evaluatorA
deriving Repr, DecidableEq

/-- Python `getattr(self, attr)` over the three cube slots. -/
def CTState.getAttr (st : CTState) : CubeAttr → Option String
  | .dataPrepA => st.data_prep
  | .modelA => st.model
  | .evaluatorA => st.evaluator

/-- Python `setattr(self, attr, v)` over the three cube slots. -/
def CTState.setAttr (st : CTState) (a : CubeAttr) (v : Option String) : CTState :=
  match a with
  | .dataPrepA => { st with data_prep := v }
  | .modelA => { st with model := v }
  | .evaluatorA => { st with evaluator := v }

/-- External facts the compatibility test consumes: which strings name
existing filesystem paths, the clock, the content hash of the downloaded
demo archive, and (modelled from the spec, the modules are not under
src/) the outputs of the data-preparation step. -/
structure CTEnv where
  existing_paths : List String
  now : Nat
  demo_file_hash : String
  prep_uid : String
  pipeline_ok : Bool
deriving Repr, DecidableEq

/-- Method `CompatibilityTestExecution.validate` (lines 75-86): when no
benchmark uid is given and any of the four workflow parameters (dataset
uid included) is missing, abort via `pretty_error`. -/
def CTE.validate (st : CTState) : Except PyError Unit :=
  let none_params := [st.data_uid.isNone, st.data_prep.isNone,
                      st.model.isNone, st.evaluator.isNone]
  if st.benchmark_uid.isNone && none_params.any (fun b => b) then
    .error (.prettyError
      "Invalid combination of arguments to test. Ensure you pass a benchmark or a complete mlcube flow")
  else .ok ()

/-- Method `CompatibilityTestExecution.set_cube_uid` (lines 117-139): a
missing value takes the fallback; a value naming an existing path gets a
temporary test-cube uid (reserved head plus the clock) whose storage
slot is symlinked to the path — the temporary uid is stored in
`self.cube_uid` as the source does. -/
def CTE.set_cube_uid (env : CTEnv) (fs : Fs) (st : CTState) (attr : CubeAttr)
    (fallback : Option String) : CTState × Fs :=
  match st.getAttr attr with
  | none => (st.setAttr attr fallback, fs)
  | some val =>
    if env.existing_paths.contains val then
      let cube_uid := testCubeHead ++ toString env.now
      let dst := cubesStorageDir ++ "/" ++ cube_uid
      ({ st with cube_uid := some cube_uid },
       { fs with cube_symlinks := fs.cube_symlinks ++ [(dst, val)] })
    else (st, fs)

/-- Method `CompatibilityTestExecution.prepare_test` (lines 88-102).
This module is written against an older entities API while it imports
the src classes, so both branches fail on the version seam. With a
benchmark uid, `Benchmark.get(self.benchmark_uid, self.comms)` (line
93) passes two arguments to src's one-argument `Benchmark.get`
(benchmark.py line 55), raising `TypeError` before any fetch. Without
one, the cube slots resolve, `Benchmark.tmp` succeeds (its three-uid
call matches src's signature, a still-missing slot rendering as the
string `"None"` under f-string interpolation) and writes the temporary
record, but the following `self.benchmark.uid` (line 102) raises
`AttributeError`: src `Benchmark` instances carry only the `model`
attribute. The storage side effects of an aborted stage are not tracked
past the abort. -/
def CTE.prepare_test (_r : RemoteEnv) (env : CTEnv) (fs : Fs) (st : CTState) :
    Except PyError (CTState × Fs) :=
  match st.benchmark_uid with
  | some _buid =>
    .error (.typeError "get() takes 2 positional arguments but 3 were given")
  | none => do
    let (st1, fs1) := CTE.set_cube_uid env fs st .dataPrepA none
    let (st2, fs2) := CTE.set_cube_uid env fs1 st1 .modelA none
    let (st3, fs3) := CTE.set_cube_uid env fs2 st2 .evaluatorA none
    let (b, _fs4) ← Benchmark.tmp fs3 (pyStr st3.data_prep) (pyStr st3.model)
      (pyStr st3.evaluator) none none
    let _st4 : CTState := { st3 with benchmark := some b }
    .error (.attributeError "uid")

/-- Steps of the compatibility-test orchestration, recorded in execution
order so fail-fast behaviour is observable. -/
inductive CTStep where
  | validateStep
  | prepareStep
  | downloadDemoStep
  | dataPrepStep
  | mockRegStep
  | executeStep
deriving Repr, DecidableEq

/-- Method `CompatibilityTestExecution.download_demo_data` (lines
164-191). Its first statements read `self.benchmark.demo_dataset_url`
and `self.benchmark.demo_dataset_hash` (lines 171-172) — attributes of
the older benchmark class. A src `Benchmark` instance carries only the
`model` attribute (benchmark.py line 32), so the read raises
`AttributeError` before the download, the hashing, and the mismatch
check of lines 176-179, which are therefore unreachable. -/
def CTE.download_demo_data (_env : CTEnv) (_b : Benchmark) : Except PyError Unit :=
  .error (.attributeError "demo_dataset_url")

/-- The integrity comparison written at lines 176-179 of
`download_demo_data`, on the values it names: abort via `pretty_error`
when a truthy expected hash differs from the computed file hash; an
empty (or absent) expected hash skips the comparison. In the program as
given this code is dead (the attribute reads above it raise first); it
is embedded separately so the unreachable branch can be stated. -/
def demo_hash_mismatch_check (dset_hash : Option String) (file_hash : String) :
    Except PyError Unit :=
  if optTruthy dset_hash && !(dset_hash = some file_hash) then
    .error (.prettyError "Demo dataset hash does not match expected hash")
  else .ok ()

/-- Method `CompatibilityTestExecution.set_data_uid` (lines 141-163):
with a dataset uid nothing happens; without one `download_demo_data`
runs and raises `AttributeError` on the benchmark attribute read (also
when `self.benchmark` is still `None`). Were the download to succeed,
the data-preparation step (`DataPreparation.run`, module not under
src/, modelled from the spec as producing the prepared dataset uid)
would run, and then the mock registration `Dataset(self.data_uid,
self.ui)` (line 160) would pass positional arguments to src's
keyword-only pydantic `Dataset`, raising `TypeError`. The returned
trace records the steps that actually ran. -/
def CTE.set_data_uid (env : CTEnv) (st : CTState) :
    (Except PyError CTState) × List CTStep :=
  match st.data_uid with
  | some _ => (.ok st, [])
  | none =>
    match st.benchmark with
    | none => (.error (.attributeError "demo_dataset_url"), [.downloadDemoStep])
    | some b =>
      match CTE.download_demo_data env b with
      | .error e => (.error e, [.downloadDemoStep])
      | .ok _ =>
        (.error (.typeError "Dataset() takes no positional arguments"),
         [.downloadDemoStep, .dataPrepStep])

/-- Method `CompatibilityTestExecution.execute_benchmark` (lines
104-115): `BenchmarkExecution.run` (module not under src/) is modelled
from the spec as the evaluation pipeline, whose own failure surfaces
verbatim; afterwards the source builds `Result(self.benchmark_uid,
self.data_uid, self.model)`, but the `Result` class in
src/cli/medperf/entities/result.py takes four positional arguments
(result_path first), so the three-argument call raises `TypeError`. -/
def CTE.execute_benchmark (env : CTEnv) (_st : CTState) :
    (Except PyError Unit) × List CTStep :=
  if !env.pipeline_ok then
    (.error (.medperfException "benchmark execution failed"), [.executeStep])
  else
    (.error (.typeError
      "Result() missing 1 required positional argument model_uid"), [.executeStep])

/-- Constructor `CompatibilityTestExecution.__init__` (lines 56-73): the
workflow state assembled from the invocation arguments. -/
def CTE.initState (benchmark_uid data_uid data_prep mdl evaluator : Option String) :
    CTState :=
  { benchmark_uid := benchmark_uid
    benchmark := none
    data_uid := data_uid
    data_prep := data_prep
    model := mdl
    evaluator := evaluator
    cube_uid := none }

/-- Classmethod `CompatibilityTestExecution.run` (lines 19-54): builds
the state from the arguments, then validate, prepare_test, set_data_uid,
execute_benchmark in order, aborting at the first failure. The trace
lists the stages that were entered. -/
def CTE.run (r : RemoteEnv) (env : CTEnv) (fs : Fs)
    (benchmark_uid data_uid data_prep mdl evaluator : Option String) :
    (Except PyError (CTState × Fs)) × List CTStep :=
  let st : CTState := CTE.initState benchmark_uid data_uid data_prep mdl evaluator
  match CTE.validate st with
  | .error e => (.error e, [.validateStep])
  | .ok _ =>
    match CTE.prepare_test r env fs st with
    | .error e => (.error e, [.validateStep, .prepareStep])
    | .ok (st1, fs1) =>
      match CTE.set_data_uid env st1 with
      | (.error e, tr) => (.error e, [.validateStep, .prepareStep] ++ tr)
      | (.ok st2, tr) =>
        match CTE.execute_benchmark env st2 with
        | (.error e, tr2) => (.error e, [.validateStep, .prepareStep] ++ tr ++ tr2)
        | (.ok _, tr2) => (.ok (st2, fs1), [.validateStep, .prepareStep] ++ tr ++ tr2)

/-- Empty local storage with no failing writes. -/
def emptyFs : Fs :=
  { datasets := []
    benchmarks := []
    ds_write_fail := []
    bmk_write_fail := []
    cube_symlinks := [] }

/-- An empty registry state for upload scenarios. -/
def reg0 : Registry :=
  { uploaded_benchmarks := []
    uploaded_datasets := []
    next_id := 10 }

/-- Remote dataset records with identifiers 1 and 2 (the listing
scenario of the spec). -/
def dmR1 : DatasetMeta :=
  { id := some 1, name := "d1", generated_uid := "g1"
    data_preparation_mlcube := .pint 1, for_test := false }

/-- Remote dataset record with identifier 2. -/
def dmR2 : DatasetMeta :=
  { id := some 2, name := "d2", generated_uid := "g2"
    data_preparation_mlcube := .pint 1, for_test := false }

/-- Local dataset record whose fingerprint resolves to identifier 2. -/
def dmL2 : DatasetMeta :=
  { id := some 2, name := "d2", generated_uid := "g2"
    data_preparation_mlcube := .pint 1, for_test := false }

/-- Local dataset record whose fingerprint resolves to identifier 3. -/
def dmL3 : DatasetMeta :=
  { id := some 3, name := "d3", generated_uid := "g3"
    data_preparation_mlcube := .pint 1, for_test := false }

/-- Remote benchmark record with identifier 1. -/
def bmR1 : BenchmarkModel :=
  { id := "1", name := "b1", data_preparation_mlcube := "10"
    reference_model_mlcube := "11", data_evaluator_mlcube := "12"
    demo_dataset_tarball_url := none, demo_dataset_tarball_hash := none
    models := [] }

/-- Remote benchmark record with identifier 2. -/
def bmR2 : BenchmarkModel :=
  { id := "2", name := "b2", data_preparation_mlcube := "10"
    reference_model_mlcube := "11", data_evaluator_mlcube := "12"
    demo_dataset_tarball_url := none, demo_dataset_tarball_hash := none
    models := [] }

/-- Local benchmark record under key 2. -/
def bmL2 : BenchmarkModel :=
  { id := "2", name := "b2", data_preparation_mlcube := "10"
    reference_model_mlcube := "11", data_evaluator_mlcube := "12"
    demo_dataset_tarball_url := none, demo_dataset_tarball_hash := none
    models := ["11"] }

/-- Local benchmark record under key 3. -/
def bmL3 : BenchmarkModel :=
  { id := "3", name := "b3", data_preparation_mlcube := "10"
    reference_model_mlcube := "11", data_evaluator_mlcube := "12"
    demo_dataset_tarball_url := none, demo_dataset_tarball_hash := none
    models := ["11"] }

/-- The reconciliation scenario registry: remote identifiers 1 and 2 for
datasets and for benchmarks. -/
def renvS : RemoteEnv :=
  { reachable := true
    datasets := [dmR1, dmR2]
    benchmarks := [("1", bmR1), ("2", bmR2)]
    benchmark_models := [("1", ["13"]), ("2", ["13"])]
    user_dataset_associations := []
    user_mlcube_associations := []
    assoc_ds_ok := true
    assoc_cube_ok := true }

/-- The reconciliation scenario cache: local identifiers 2 and 3 for
datasets and for benchmarks. -/
def fsS : Fs :=
  { datasets := [("2", dmL2), ("3", dmL3)]
    benchmarks := [("2", bmL2), ("3", bmL3)]
    ds_write_fail := []
    bmk_write_fail := []
    cube_symlinks := [] }

/-- Remote dataset record with identifier 7, used in the write-through
scenarios. -/
def dmR7 : DatasetMeta :=
  { id := some 7, name := "d7", generated_uid := "g7"
    data_preparation_mlcube := .pint 1, for_test := false }

/-- Registry holding only dataset 7. -/
def renv7 : RemoteEnv :=
  { reachable := true
    datasets := [dmR7]
    benchmarks := []
    benchmark_models := []
    user_dataset_associations := []
    user_mlcube_associations := []
    assoc_ds_ok := true
    assoc_cube_ok := true }

/-- Cache state where persisting under key 7 raises an OS error. -/
def fsFail7 : Fs :=
  { datasets := []
    benchmarks := []
    ds_write_fail := ["7"]
    bmk_write_fail := []
    cube_symlinks := [] }

/-- The cache state after `Dataset.get` write-through of dataset 7 into
empty storage. -/
def fsAfter7 : Fs :=
  { datasets := [("7", dmR7)]
    benchmarks := []
    ds_write_fail := []
    bmk_write_fail := []
    cube_symlinks := [] }

/-- Benchmark whose demo archive is expected to hash to abc123. -/
def bmDemo : BenchmarkModel :=
  { id := "9", name := "b9", data_preparation_mlcube := "10"
    reference_model_mlcube := "11", data_evaluator_mlcube := "12"
    demo_dataset_tarball_url := some "http://demo"
    demo_dataset_tarball_hash := some "abc123"
    models := ["11"] }

/-- Compatibility-test workflow state holding a resolved src `Benchmark`
instance over `bmDemo`, with no dataset uid supplied. -/
def stDemo : CTState :=
  { benchmark_uid := some "9"
    benchmark := some ⟨bmDemo⟩
    data_uid := none
    data_prep := some "10"
    model := some "11"
    evaluator := some "12"
    cube_uid := none }

/-- External environment in which the downloaded demo archive hashes to
xyz999. -/
def envDemo : CTEnv :=
  { existing_paths := []
    now := 0
    demo_file_hash := "xyz999"
    prep_uid := "p1"
    pipeline_ok := true }

/-- The temporary benchmark produced by `Benchmark.tmp` on cube uids 1,
2, 3. -/
def bC3 : Benchmark :=
  ⟨{ id := "tmp_1_2_3", name := "tmp_1_2_3", data_preparation_mlcube := "1"
     reference_model_mlcube := "2", data_evaluator_mlcube := "3"
     demo_dataset_tarball_url := none, demo_dataset_tarball_hash := none
     models := ["2"] }⟩

/-- The storage state after `Benchmark.tmp` on cube uids 1, 2, 3 ran
against empty storage. -/
def fsC3 : Fs :=
  { datasets := []
    benchmarks := [("tmp_1_2_3", bC3.model)]
    ds_write_fail := []
    bmk_write_fail := []
    cube_symlinks := [] }

/-- A non-test dataset record for upload scenarios. -/
def dUpload : Dataset :=
  ⟨{ id := none, name := "du", generated_uid := "gu"
     data_preparation_mlcube := .pint 4, for_test := false }⟩

/-- A test (synthetic) dataset record for upload scenarios. -/
def dTest : Dataset :=
  ⟨{ id := none, name := "dt", generated_uid := "gt"
     data_preparation_mlcube := .pstr "path/to/cube", for_test := true }⟩

/-- Decidable equality for `Except`, so that concrete scenario outcomes
can be settled by `decide`. -/
instance {ε α : Type} [DecidableEq ε] [DecidableEq α] : DecidableEq (Except ε α) :=
  fun x y =>
    match x, y with
    | .ok a, .ok b => decidable_of_iff (a = b) (by simp)
    | .error a, .error b => decidable_of_iff (a = b) (by simp)
    | .ok _, .error _ => isFalse (fun hc => Except.noConfusion hc)
    | .error _, .ok _ => isFalse (fun hc => Except.noConfusion hc)

theorem lookupAssoc_putAssoc_self {α : Type} (l : List (String × α)) (k : String) (v : α) :
    lookupAssoc (putAssoc l k v) k = some v := by
  induction l with
  | nil => simp [putAssoc, lookupAssoc]
  | cons hd t ih =>
    obtain ⟨k1, v1⟩ := hd
    by_cases h : k1 = k
    · simp [putAssoc, h, lookupAssoc]
    · simpa [putAssoc, h, lookupAssoc, List.find?_cons_of_neg] using ih

theorem lookupAssoc_putAssoc_ne {α : Type} (l : List (String × α)) (k k2 : String) (v : α)
    (h : k2 ≠ k) : lookupAssoc (putAssoc l k v) k2 = lookupAssoc l k2 := by
  induction l with
  | nil => simp [putAssoc, lookupAssoc, Ne.symm h]
  | cons hd t ih =>
    obtain ⟨k1, v1⟩ := hd
    by_cases h1 : k1 = k
    · subst h1
      simp [putAssoc, lookupAssoc, Ne.symm h]
    · by_cases h2 : k1 = k2
      · subst h2
        simp [putAssoc, h1, lookupAssoc]
      · simpa [putAssoc, h1, lookupAssoc, h2] using ih

/-- C1: the spec and the repository's own entity test expect `all()` to
merge the remote and the local view for every entity type, so with
remote identifiers 1,2 and local identifiers 2,3 the result should be
exactly 1,2,3. `Dataset.all` does return exactly that, but
`Benchmark.all` only enumerates the locally present uids (fetching each
through `get`), so the remote-only benchmark 1 is dropped: it returns
only 2,3 on the same scenario. -/
theorem benchmark_all_drops_remote_only_entities :
    (Dataset.all renvS fsS false).map (fun l => l.map (fun d => d.meta.id)) =
      Except.ok [some 1, some 2, some 3] ∧
    (Benchmark.all renvS fsS).map (fun p => p.1.map (fun b => b.model.id)) =
      Except.ok ["2", "3"] := by
  constructor
  · rfl
  · rfl

/-- C2: listing associations with `local_only` raises `AttributeError`
instead of returning the empty list: the second textual definition of
`__remote_all` (the local no-op) shadows the first, and `__local_all`,
which `Association.all` calls, is never defined. -/
theorem association_all_local_only_raises (r : RemoteEnv) (mine_only : Bool) :
    Association.all r true mine_only =
      .error (.attributeError "_Association__local_all") := rfl

/-- C2 supporting fact: the non-local path fails too, because the
surviving `__remote_all` accepts no `mine_only` keyword argument. -/
theorem association_all_remote_raises (r : RemoteEnv) (mine_only : Bool) :
    Association.all r false mine_only =
      .error (.typeError "__remote_all() got an unexpected keyword argument mine_only") := rfl

/-- C3 counterexample: constructing the temporary benchmark from cube
identifiers 1, 2, 3 against empty storage writes a record into the
benchmark storage namespace (under the tmp-prefixed key), so the set of
records in entity storage is not unchanged. -/
theorem benchmark_tmp_persists_record_cex :
    (Benchmark.tmp emptyFs "1" "2" "3" none none).map
        (fun p => p.2.benchmarks.map Prod.fst) = Except.ok ["tmp_1_2_3"] ∧
    emptyFs.benchmarks.map Prod.fst = [] := by
  constructor
  · rfl
  · rfl

/-- C4 counterexample: uploading the synthetic benchmark produced by
`Benchmark.tmp` raises nothing and submits one record to the registry
(`Benchmark.upload` has no synthetic-entity guard). -/
theorem benchmark_upload_accepts_synthetic_cex :
    (Benchmark.tmp emptyFs "1" "2" "3" none none).map
        (fun p => (Benchmark.upload reg0 p.1).2.uploaded_benchmarks.length) =
      Except.ok 1 ∧
    reg0.uploaded_benchmarks.length = 0 := by
  constructor
  · rfl
  · rfl

/-- C9 counterexample: a complete explicit cube tuple (data preparation
1, model 2, evaluator 3) with no benchmark uid and no dataset uid is
rejected by `validate` with the invalid-combination condition, because
`validate` also requires the dataset uid; the run aborts at the
validation step. -/
theorem compat_run_rejects_cube_tuple_cex :
    CTE.run renvS envDemo emptyFs none none (some "1") (some "2") (some "3") =
      (.error (.prettyError
        "Invalid combination of arguments to test. Ensure you pass a benchmark or a complete mlcube flow"),
       [.validateStep]) := rfl

/-- C3 amended: `Benchmark.tmp` does write a record into benchmark
storage, but only under its synthesized identifier, which carries the
reserved temporary head; every other benchmark storage key, and the
dataset storage, are unchanged. -/
theorem benchmark_tmp_frame (fs : Fs) (dp mdl ev : String) (u hsh : Option String)
    (b : Benchmark) (fs1 : Fs)
    (h : Benchmark.tmp fs dp mdl ev u hsh = .ok (b, fs1)) :
    (∃ rest, b.model.id = tmpUidHead ++ rest) ∧
    (∀ k, k ≠ b.model.id →
      lookupAssoc fs1.benchmarks k = lookupAssoc fs.benchmarks k) ∧
    fs1.datasets = fs.datasets := by
  simp only [Benchmark.tmp] at h
  cases hw : Benchmark.write fs ⟨Benchmark.tmpModel dp mdl ev u hsh⟩ with
  | error e => rw [hw] at h; exact absurd h (by simp)
  | ok fsw =>
    rw [hw] at h
    simp only [Except.ok.injEq, Prod.mk.injEq] at h
    obtain ⟨hb, hfs⟩ := h
    subst hb; subst hfs
    simp only [Benchmark.write] at hw
    by_cases hcont : fs.bmk_write_fail.contains (Benchmark.tmpModel dp mdl ev u hsh).id
    · rw [if_pos hcont] at hw; exact absurd hw (by simp)
    · rw [if_neg hcont] at hw
      simp only [Except.ok.injEq] at hw
      subst hw
      refine ⟨⟨dp ++ "_" ++ mdl ++ "_" ++ ev, rfl⟩, ?_, rfl⟩
      intro k hk
      exact lookupAssoc_putAssoc_ne fs.benchmarks _ k _ hk

/-- C3 amended, witness at the concrete scenario: the uid synthesized
from cubes 1, 2, 3 carries the temporary head, and an unrelated storage
key is untouched. -/
theorem benchmark_tmp_frame_witness :
    (∃ rest, bC3.model.id = tmpUidHead ++ rest) ∧
    lookupAssoc fsC3.benchmarks "42" = lookupAssoc emptyFs.benchmarks "42" := by
  have h := benchmark_tmp_frame emptyFs "1" "2" "3" none none bC3 fsC3 (by decide)
  exact ⟨h.1, h.2.1 "42" (by decide)⟩

/-- C5 counterexample: dataset 7 exists remotely and the remote fetch
succeeds, but persisting the write-through copy fails; `Dataset.get`
propagates the persistence failure, so the read fails even though the
fetch succeeded. -/
theorem dataset_get_write_failure_fails_read_cex :
    Dataset.get renv7 fsFail7 "7" false = .error .osError := by decide

/-- C5 amended: whenever `Dataset.get` succeeds (remote fetch with a
successful write-through, or local fallback), the resolved record is
present in the resulting local storage under the requested uid, so an
immediately following `Dataset.get` restricted to local succeeds with
the very same record and storage state. (The claim's further clause
that a write-through persistence failure never fails the read is
refuted separately: the source does not guard the write.) -/
theorem dataset_get_write_through (r : RemoteEnv) (fs fs1 : Fs) (uid : String) (d : Dataset)
    (h : Dataset.get r fs uid false = .ok (d, fs1)) :
    Dataset.get r fs1 uid true = .ok (d, fs1) := by
  have hloc : ∀ (fsx : Fs) (dx : Dataset), Dataset.local_get fsx uid = .ok dx →
      Dataset.get r fsx uid true = .ok (dx, fsx) := by
    intro fsx dx hl
    simp [Dataset.get, hl, Except.map]
  have hlocpair : ∀ fsx : Fs,
      (Dataset.local_get fsx uid).map (fun d0 => (d0, fsx)) = .ok (d, fs1) →
      Dataset.get r fs1 uid true = .ok (d, fs1) := by
    intro fsx hmap
    cases hl : Dataset.local_get fsx uid with
    | error e => rw [hl] at hmap; exact absurd hmap (by simp [Except.map])
    | ok d0 =>
      rw [hl] at hmap
      simp only [Except.map, Except.ok.injEq, Prod.mk.injEq] at hmap
      obtain ⟨hd0, hfs⟩ := hmap
      subst hd0
      subst hfs
      exact hloc _ _ hl
  cases hdig : isStrDigit uid with
  | false =>
    simp only [Dataset.get, hdig, Bool.or_false, Bool.not_false, if_true] at h
    exact hlocpair fs h
  | true =>
    simp only [Dataset.get, hdig, Bool.or_false, Bool.not_true, Bool.false_eq_true,
      if_false] at h
    cases hr : Dataset.remote_get r fs uid with
    | error e =>
      rw [hr] at h
      cases e <;> simp only [catchComm] at h <;> first
        | exact absurd h (by simp)
        | exact hlocpair fs h
    | ok p =>
      rw [hr] at h
      simp only [catchComm, Except.ok.injEq] at h
      subst h
      cases hg : RemoteEnv.get_dataset r uid with
      | none =>
        simp only [Dataset.remote_get, hg] at hr
        exact absurd hr (by simp)
      | some meta =>
        simp only [Dataset.remote_get, hg, Bind.bind] at hr
        cases hc : Dataset.construct meta with
        | error e =>
          simp only [hc, Except.bind] at hr
          exact absurd hr (by simp)
        | ok d1 =>
          rw [hc] at hr
          simp only [Except.bind] at hr
          cases hw : Dataset.write fs d1 with
          | error e =>
            simp only [hw] at hr
            exact absurd hr (by simp)
          | ok fsw =>
            rw [hw] at hr
            simp only [Except.ok.injEq, Prod.mk.injEq] at hr
            obtain ⟨hd1, hfsw⟩ := hr
            subst hd1
            subst hfsw
            have hcon : Dataset.construct meta = .ok ⟨meta⟩ := by
              cases hch : check_data_preparation_mlcube meta.data_preparation_mlcube
                  meta.for_test with
              | error e =>
                simp only [Dataset.construct, hch] at hc
                exact absurd hc (by simp)
              | ok v => simp only [Dataset.construct, hch]
            have hdm : d1 = ⟨meta⟩ := (Except.ok.inj (hcon.symm.trans hc)).symm
            have hkey : Dataset.key d1 = uid := by
              have hre : r.reachable = true := by
                by_contra hre
                simp only [Bool.not_eq_true] at hre
                simp [RemoteEnv.get_dataset, hre] at hg
              simp only [RemoteEnv.get_dataset, hre, if_true] at hg
              have hp := List.find?_some hg
              have hp2 : meta.id.map toString = some uid := of_decide_eq_true hp
              obtain ⟨n, hn1, hn2⟩ := Option.map_eq_some'.mp hp2
              simp only [Dataset.key, hdm, hn1]
              exact hn2
            have hwfs : fsw = { fs with datasets := putAssoc fs.datasets uid meta } := by
              simp only [Dataset.write] at hw
              by_cases hcont : fs.ds_write_fail.contains (Dataset.key d1) = true
              · simp only [hcont, if_true] at hw
                exact absurd hw (by simp)
              · simp only [hcont, Bool.false_eq_true, if_false, Except.ok.injEq] at hw
                rw [← hw, hkey, hdm]
            apply hloc
            rw [hwfs]
            simp only [Dataset.local_get, Dataset.get_local_dict,
              lookupAssoc_putAssoc_self, Bind.bind, Except.bind]
            rw [hcon, hdm]

/-- C5 amended, witness: after fetching dataset 7 remotely into empty
local storage, the local-only read succeeds with the cached record. -/
theorem dataset_get_write_through_witness :
    Dataset.get renv7 fsAfter7 "7" true = Except.ok (⟨dmR7⟩, fsAfter7) :=
  dataset_get_write_through renv7 emptyFs fsAfter7 "7" ⟨dmR7⟩ (by decide)

theorem dataset_construct_shape (meta : DatasetMeta) :
    (Dataset.construct meta = .ok ⟨meta⟩) ∨
    (∃ msg, Dataset.construct meta = .error (.validationError msg)) := by
  by_cases hx : (!meta.data_preparation_mlcube.isInt && !meta.for_test) = true
  · right
    exact ⟨"data_preparation_mlcube must be an integer if not running a compatibility test",
      by simp [Dataset.construct, check_data_preparation_mlcube, hx]⟩
  · left
    simp [Dataset.construct, check_data_preparation_mlcube, hx]

theorem dataset_remote_get_shape (r : RemoteEnv) (fs : Fs) (uid : String)
    (meta : DatasetMeta) (hg : RemoteEnv.get_dataset r uid = some meta) :
    (∃ p, Dataset.remote_get r fs uid = .ok p) ∨
    (∃ msg, Dataset.remote_get r fs uid = .error (.validationError msg)) ∨
    (Dataset.remote_get r fs uid = .error .osError) := by
  rcases dataset_construct_shape meta with hok | ⟨msg, herr⟩
  · by_cases hw : fs.ds_write_fail.contains (Dataset.key ⟨meta⟩) = true
    · right; right
      simp only [Dataset.remote_get, hg, Bind.bind, hok, Except.bind, Dataset.write,
        hw, if_true]
    · left
      refine ⟨(⟨meta⟩, { fs with datasets := putAssoc fs.datasets (Dataset.key ⟨meta⟩) meta }), ?_⟩
      simp only [Dataset.remote_get, hg, Bind.bind, hok, Except.bind, Dataset.write,
        hw, Bool.false_eq_true, if_false]
  · right; left
    exact ⟨msg, by simp only [Dataset.remote_get, hg, Bind.bind, herr, Except.bind]⟩

/-- C6: with an unrestricted call on a digit uid, `Dataset.get` goes
remote first whenever the registry can resolve the uid; it falls back to
the local cache on retrieval failure or when the call is restricted to
local; and it fails with the not-found condition exactly when the uid is
absent from both the remote and the local view. -/
theorem dataset_get_resolution (r : RemoteEnv) (fs : Fs) (uid : String)
    (hd : isStrDigit uid = true) :
    (Dataset.get r fs uid true = (Dataset.local_get fs uid).map (fun d => (d, fs))) ∧
    (RemoteEnv.get_dataset r uid ≠ none →
       Dataset.get r fs uid false = Dataset.remote_get r fs uid) ∧
    (RemoteEnv.get_dataset r uid = none →
       Dataset.get r fs uid false = (Dataset.local_get fs uid).map (fun d => (d, fs))) ∧
    ((Dataset.get r fs uid false = .error (.invalidArgument notFoundMsg)) ↔
       (RemoteEnv.get_dataset r uid = none ∧ lookupAssoc fs.datasets uid = none)) := by
  have hget : Dataset.get r fs uid false =
      catchComm (Dataset.remote_get r fs uid)
        ((Dataset.local_get fs uid).map (fun d => (d, fs))) := by
    simp [Dataset.get, hd]
  refine ⟨by simp [Dataset.get], ?_, ?_, ?_, ?_⟩
  · intro hne
    cases hgx : RemoteEnv.get_dataset r uid with
    | none => exact absurd hgx hne
    | some meta =>
      rcases dataset_remote_get_shape r fs uid meta hgx with ⟨p, hp⟩ | ⟨msg, hm⟩ | ho
      · rw [hget, hp]; rfl
      · rw [hget, hm]; rfl
      · rw [hget, ho]; rfl
  · intro hgx
    have hrgn : Dataset.remote_get r fs uid = .error .commRetrieval := by
      simp only [Dataset.remote_get, hgx]
    rw [hget, hrgn]
    rfl
  · intro hfail
    rw [hget] at hfail
    cases hgx : RemoteEnv.get_dataset r uid with
    | some meta =>
      rcases dataset_remote_get_shape r fs uid meta hgx with ⟨p, hp⟩ | ⟨msg, hm⟩ | ho
      · rw [hp] at hfail; exact absurd hfail (by simp [catchComm])
      · rw [hm] at hfail; exact absurd hfail (by simp [catchComm])
      · rw [ho] at hfail; exact absurd hfail (by simp [catchComm])
    | none =>
      have hrgn : Dataset.remote_get r fs uid = .error .commRetrieval := by
        simp only [Dataset.remote_get, hgx]
      rw [hrgn] at hfail
      simp only [catchComm] at hfail
      cases hlk : lookupAssoc fs.datasets uid with
      | some meta2 =>
        have hlg : Dataset.local_get fs uid = Dataset.construct meta2 := by
          simp only [Dataset.local_get, Dataset.get_local_dict, hlk, Bind.bind, Except.bind]
        rcases dataset_construct_shape meta2 with hok | ⟨msg, herr⟩
        · rw [hlg, hok] at hfail
          exact absurd hfail (by simp [Except.map])
        · rw [hlg, herr] at hfail
          exact absurd hfail (by simp [Except.map])
      | none => exact ⟨rfl, rfl⟩
  · rintro ⟨hgx, hlk⟩
    have hrgn : Dataset.remote_get r fs uid = .error .commRetrieval := by
      simp only [Dataset.remote_get, hgx]
    rw [hget, hrgn]
    simp only [catchComm, Dataset.local_get, Dataset.get_local_dict, hlk,
      Bind.bind, Except.bind, Except.map]

/-- C6 witness: with dataset 7 absent from the registry view and from
the empty cache, the unrestricted read fails with the not-found
condition (instantiating the characterization at uid 4). -/
theorem dataset_get_resolution_witness :
    (Dataset.get renv7 emptyFs "4" false = .error (.invalidArgument notFoundMsg)) ↔
      (RemoteEnv.get_dataset renv7 "4" = none ∧ lookupAssoc emptyFs.datasets "4" = none) :=
  (dataset_get_resolution renv7 emptyFs "4" (by decide)).2.2.2

/-- C4 amended: `Dataset.upload` refuses a test dataset with the
invalid-state condition and submits nothing, and submits a non-test
dataset returning the server-updated record; `Benchmark.upload`,
however, has no synthetic-entity guard and always submits. -/
theorem upload_guard_amended (reg : Registry) (d : Dataset) (b : Benchmark) :
    (d.meta.for_test = true →
       Dataset.upload reg d =
         (.error (.invalidArgument "Cannot upload test datasets."), reg)) ∧
    (d.meta.for_test = false →
       (Dataset.upload reg d).1 = .ok { d.meta with id := some reg.next_id } ∧
       (Dataset.upload reg d).2.uploaded_datasets = reg.uploaded_datasets ++ [d.meta]) ∧
    ((Benchmark.upload reg b).2.uploaded_benchmarks =
       reg.uploaded_benchmarks ++ [b.model]) := by
  refine ⟨?_, ?_, rfl⟩
  · intro ht
    simp [Dataset.upload, ht]
  · intro hf
    constructor
    · simp [Dataset.upload, hf, Registry.upload_dataset]
    · simp [Dataset.upload, hf, Registry.upload_dataset]

/-- C4 amended, witness: the test dataset is refused and nothing is
submitted; the non-test dataset is submitted. -/
theorem upload_guard_amended_witness :
    Dataset.upload reg0 dTest =
      (.error (.invalidArgument "Cannot upload test datasets."), reg0) ∧
    (Dataset.upload reg0 dUpload).2.uploaded_datasets =
      reg0.uploaded_datasets ++ [dUpload.meta] :=
  ⟨(upload_guard_amended reg0 dTest bC3).1 (by decide),
   ((upload_guard_amended reg0 dUpload bC3).2.1 (by decide)).2⟩

/-- C7: the demo-hash integrity check is unreachable in the program as
given. A run with a benchmark uid and no dataset uid crashes at
resolution with `TypeError` (two-argument call of src's one-argument
`Benchmark.get`); even `set_data_uid` invoked directly on a state
holding a resolved src benchmark and no dataset uid raises
`AttributeError` reading `demo_dataset_url` before any download, hash
comparison or data-preparation step; and the dead comparison of lines
176-179 itself, evaluated on the spec scenario (expected abc123,
computed xyz999), would have produced the integrity failure, while an
empty expected hash would have skipped it. -/
theorem compat_demo_hash_unreachable :
    CTE.run renvS envDemo fsS (some "9") none none none none =
      (.error (.typeError "get() takes 2 positional arguments but 3 were given"),
       [.validateStep, .prepareStep]) ∧
    CTE.set_data_uid envDemo stDemo =
      (.error (.attributeError "demo_dataset_url"), [.downloadDemoStep]) ∧
    demo_hash_mismatch_check (some "abc123") "xyz999" =
      .error (.prettyError "Demo dataset hash does not match expected hash") ∧
    demo_hash_mismatch_check (some "") "xyz999" = .ok () := by
  refine ⟨rfl, rfl, rfl, rfl⟩

/-- C8: when the dataset's declared data-preparation cube differs from
the benchmark's registered one, the associate command aborts with the
incompatibility condition and the server association store is unchanged
(no record created). -/
theorem associate_incompatible_rejected (dset : OldDataset) (benchmark : OldBenchmark)
    (approval : Bool) (sv : AssocServer)
    (h : dset.preparation_cube_uid ≠ benchmark.data_preparation) :
    DatasetBenchmarkAssociation.run dset benchmark approval sv =
      (.error (.prettyError "The specified dataset was not prepared for this benchmark"),
       sv) := by
  simp [DatasetBenchmarkAssociation.run, h]

/-- C8 witness: preparation cube Q against benchmark cube P. -/
theorem associate_incompatible_rejected_witness :
    DatasetBenchmarkAssociation.run ⟨1, "Q"⟩ ⟨2, "P"⟩ true ⟨[]⟩ =
      (.error (.prettyError "The specified dataset was not prepared for this benchmark"),
       ⟨[]⟩) :=
  associate_incompatible_rejected ⟨1, "Q"⟩ ⟨2, "P"⟩ true ⟨[]⟩ (by decide)

/-- C9 amended: validation passes exactly when a benchmark uid is given
or all four workflow parameters (dataset uid, data-preparation cube,
model cube, evaluator cube) are given; when validation fails, the run
aborts at the validation step, before any resolution or pipeline
stage. -/
theorem compat_validate_amended (r : RemoteEnv) (env : CTEnv) (fs : Fs)
    (bu du dp mdl ev : Option String) :
    (CTE.validate (CTE.initState bu du dp mdl ev) = .ok () ↔
      (bu ≠ none ∨ (du ≠ none ∧ dp ≠ none ∧ mdl ≠ none ∧ ev ≠ none))) ∧
    (∀ e, CTE.validate (CTE.initState bu du dp mdl ev) = .error e →
      CTE.run r env fs bu du dp mdl ev = (.error e, [.validateStep])) := by
  constructor
  · cases bu <;> cases du <;> cases dp <;> cases mdl <;> cases ev <;>
      simp [CTE.validate, CTE.initState]
  · intro e he
    simp only [CTE.run, he]

/-- C9 amended, witness: data prep and model cubes supplied with a
dataset uid but no evaluator and no benchmark is rejected at
validation. -/
theorem compat_validate_amended_witness :
    CTE.run renvS envDemo emptyFs none (some "8") (some "1") (some "2") none =
      (.error (.prettyError
        "Invalid combination of arguments to test. Ensure you pass a benchmark or a complete mlcube flow"),
       [.validateStep]) :=
  (compat_validate_amended renvS envDemo emptyFs none (some "8") (some "1")
    (some "2") none).2 _ (by decide)

/-- C10: a non-integer data-preparation cube reference is rejected with
the validation error unless the record is flagged for test; a for-test
record always passes this validator; consequently every successfully
constructed non-test dataset has an integer reference. -/
theorem dataset_validator_for_test_guard (m : DatasetMeta) :
    (m.for_test = false → m.data_preparation_mlcube.isInt = false →
       Dataset.construct m = .error (.validationError
         "data_preparation_mlcube must be an integer if not running a compatibility test")) ∧
    (m.for_test = true → Dataset.construct m = .ok ⟨m⟩) ∧
    (∀ d, Dataset.construct m = .ok d → d.meta.for_test = false →
       d.meta.data_preparation_mlcube.isInt = true) := by
  refine ⟨?_, ?_, ?_⟩
  · intro hf hni
    simp [Dataset.construct, check_data_preparation_mlcube, hf, hni]
  · intro ht
    simp [Dataset.construct, check_data_preparation_mlcube, ht]
  · intro d hd hf
    rcases dataset_construct_shape m with hok | ⟨msg, herr⟩
    · have hdm : d = ⟨m⟩ := (Except.ok.inj (hok.symm.trans hd)).symm
      subst hdm
      by_contra hni
      simp only [Bool.not_eq_true] at hni
      have hf2 : m.for_test = false := hf
      simp [Dataset.construct, check_data_preparation_mlcube, hni, hf2] at hok
    · rw [herr] at hd
      exact absurd hd (by simp)

/-- C10 witness: a for-test record with a string reference is accepted;
the same shape without the flag is rejected. -/
theorem dataset_validator_for_test_guard_witness :
    Dataset.construct dTest.meta = .ok ⟨dTest.meta⟩ ∧
    Dataset.construct ⟨none, "db", "gb", .pstr "x", false⟩ =
      .error (.validationError
        "data_preparation_mlcube must be an integer if not running a compatibility test") :=
  ⟨(dataset_validator_for_test_guard dTest.meta).2.1 (by decide),
   (dataset_validator_for_test_guard ⟨none, "db", "gb", .pstr "x", false⟩).1
     (by decide) (by decide)⟩
